/-
Verification of the reactive core and element-wrapper utilities of the
Hydrator repository, via a shallow embedding of the TypeScript sources
into Lean 4.

Sources embedded:
* `src/src/signals/schedulers/macrotask-scheduler.ts` — `MacrotaskScheduler`
  (`from`, `schedule`), together with a model of the host event loop's
  timer queue (`setTimeout` / `clearInterval` / timer dequeue-and-run).
* `src/unnamed/part_000` — `ElementRef` (`from`, `attr`) and
  `resolveSerializer`.
* The reactive core (`signal`, `cached`, effects, `TestScheduler`,
  `StabilityTracker`, `ReactiveRootImpl`) is not present under `src/`;
  only its tests and callers are.  Those parts are modelled from the
  specification (each such definition is marked `Modelled from the
  spec:`), pinned where possible by the observable behaviour the
  repository's own tests demand.
-/
import Mathlib

namespace Hydrator

/-! ### Host event-loop timer model

`MacrotaskScheduler.schedule` calls `setTimeout(() => { callback(); })` and
returns `() => { clearInterval(handle); }`.  We model the host's timer
queue explicitly: a list of `(handle, action)` pairs in queue order, a
fresh-handle counter, and a log of actions that have been executed.
Actions are identified by natural-number tags; "the callback ran" is
recorded by appending its tag to `ran`. -/

/-- State of the host event loop's timer queue plus an execution log. -/
structure TimerHost where
  timers : List (Nat × Nat)
  nextHandle : Nat
  ran : List Nat
deriving Repr, DecidableEq

/-- The empty host: no timers queued, nothing ran. -/
def TimerHost.empty : TimerHost := ⟨[], 0, []⟩

/-- `setTimeout(cb)`: append a timer holding the action, return its handle. -/
def setTimeout (h : TimerHost) (action : Nat) : Nat × TimerHost :=
  (h.nextHandle,
   { h with timers := h.timers ++ [(h.nextHandle, action)],
            nextHandle := h.nextHandle + 1 })

/-- `clearInterval(handle)` (interchangeable with `clearTimeout` in the
host): remove the timer with the given handle from the queue; a no-op if
no such timer is queued. -/
def clearInterval (h : TimerHost) (handle : Nat) : TimerHost :=
  { h with timers := h.timers.filter (fun t => t.1 ≠ handle) }

/-- `MacrotaskScheduler.schedule(callback)`: queue the action with
`setTimeout` and hand back the timer handle; the returned cancellation
closure `() => { clearInterval(handle); }` is modelled by applying
`clearInterval` to that handle. -/
def MacrotaskScheduler.schedule (h : TimerHost) (action : Nat) :
    Nat × TimerHost :=
  setTimeout h action

/-- The host dequeues the first due timer: the timer leaves the queue and
its action is about to run.  Returns the action together with the state
in which the timer is already gone from the queue. -/
def dequeueTimer (h : TimerHost) : Option (Nat × TimerHost) :=
  match h.timers with
  | [] => none
  | (_, action) :: rest => some (action, { h with timers := rest })

/-- Running the wrapper `() => { callback(); }` that
`MacrotaskScheduler.schedule` passed to `setTimeout`: it invokes the
callback unconditionally — it consults no cancelled flag. -/
def runDequeued (h : TimerHost) (action : Nat) : TimerHost :=
  { h with ran := h.ran ++ [action] }

/-! ### `MacrotaskScheduler.from` singleton model

The module holds `let singletonScheduler: MacrotaskScheduler | undefined`;
`from()` constructs the instance on first call and returns the stored one
afterwards.  Instance identity is modelled by a numeric allocation tag. -/

/-- Module-level state backing `MacrotaskScheduler.from`. -/
structure MacrotaskModule where
  singletonScheduler : Option Nat
  nextInstance : Nat
deriving Repr, DecidableEq

/-- The module state before any `from()` call. -/
def MacrotaskModule.init : MacrotaskModule := ⟨none, 0⟩

/-- `MacrotaskScheduler.from()`: if no singleton exists, allocate a new
instance and store it; always return the stored instance. -/
def MacrotaskScheduler.fromCall (m : MacrotaskModule) :
    Nat × MacrotaskModule :=
  match m.singletonScheduler with
  | none =>
      (m.nextInstance,
       { singletonScheduler := some m.nextInstance,
         nextInstance := m.nextInstance + 1 })
  | some s => (s, m)

/-- Iterate `from()` `n` times and return the last result (for `n ≥ 1`)
together with the final module state. -/
def fromCallIter : Nat → MacrotaskModule → Nat × MacrotaskModule
  | 0, m => MacrotaskScheduler.fromCall m
  | n + 1, m => fromCallIter n (MacrotaskScheduler.fromCall m).2

/-! ### `ElementRef` model (from `src/unnamed/part_000`)

`ElementRef.from(native)` rejects any node whose `nodeType` is not
`Node.ELEMENT_NODE` (numeric code 1); `ElementRef.attr(name, token,
options)` reads an attribute, resolves a serializer from the token and
deserializes the attribute string, with `optional` controlling the
missing-attribute behaviour.  A DOM node is modelled by its `nodeType`
code and its attribute map; thrown errors are `Except.error`;
`undefined` results are `Option.none` inside `Except.ok`. -/

/-- `Node.ELEMENT_NODE` numeric code. -/
def ELEMENT_NODE : Nat := 1

/-- A DOM node: its `nodeType` code and its attributes (name-value pairs,
only meaningful for element nodes). -/
structure DomNode where
  nodeType : Nat
  attributes : List (String × String)
deriving Repr, DecidableEq

/-- `Element.getAttribute(name)`: the attribute's value, or `none`
(JavaScript `null`) when the attribute is absent. -/
def DomNode.getAttribute (n : DomNode) (name : String) : Option String :=
  (n.attributes.find? (fun a => a.1 = name)).map (fun a => a.2)

/-- An `AttrSerializer`: deserializes an attribute string to a value.
(The concrete primitive serializers live in `serializers.js`, outside
`src/`; the attribute-reading logic under verification is agnostic to
which serializer the token resolves to.) -/
structure AttrSerializer (V : Type) where
  deserialize : String → V

/-- A `Serializable`: an object exchangeable for an `AttrSerializer` via
its `toSerializer` method. -/
structure Serializable (V : Type) where
  toSerializer : AttrSerializer V

/-- A `SerializerToken`: either an `AttrSerializer` itself (the source's
default "already a serializer" branch) or a `Serializable` (the source's
`toSerializer in token` branch).  The four primitive-constructor tokens
(`String`, `Number`, `Boolean`, `BigInt`) resolve to fixed serializer
objects defined in `serializers.js`, which is absent from `src/`; they
behave as the `serializer` case applied to those constants. -/
inductive SerializerToken (V : Type) where
  | serializer (s : AttrSerializer V)
  | serializable (s : Serializable V)

/-- `resolveSerializer(token)`: a `Serializable` yields its
`toSerializer()`; a serializer resolves to itself. -/
def resolveSerializer {V : Type} : SerializerToken V → AttrSerializer V
  | .serializer s => s
  | .serializable s => s.toSerializer

/-- An `ElementRef` wraps its underlying native element. -/
structure ElementRef where
  native : DomNode
deriving Repr, DecidableEq

/-- Error message thrown by `ElementRef.from` for a non-element node. -/
def nodeTypeErrorMsg : String :=
  "Tried to create an ElementRef of a non-element nodeType."

/-- Error message thrown by `ElementRef.attr` for a missing attribute. -/
def attrMissingMsg : String :=
  "Attribute did not exist on element."

/-- `ElementRef.from(native)`: throws when `native.nodeType !==
Node.ELEMENT_NODE`, otherwise constructs the wrapper around the input. -/
def ElementRef.fromNode (native : DomNode) : Except String ElementRef :=
  if native.nodeType ≠ ELEMENT_NODE then
    .error nodeTypeErrorMsg
  else
    .ok ⟨native⟩

/-- `ElementRef.attr(name, token, { optional })` (the `optional` argument
defaults to `false` when omitted): reads the attribute with
`getAttribute`; when it is `null`, returns `undefined` if `optional` and
throws otherwise; when present, deserializes the string with the
serializer resolved from the token. -/
def ElementRef.attr {V : Type} (ref : ElementRef) (name : String)
    (token : SerializerToken V) (optional : Bool) :
    Except String (Option V) :=
  match ref.native.getAttribute name with
  | none =>
      if optional then .ok none
      else .error attrMissingMsg
  | some serialized =>
      .ok (some ((resolveSerializer token).deserialize serialized))

/-! ### Reactive root, test scheduler and stability tracker

The classes `ReactiveRootImpl`, `TestScheduler` and `StabilityTracker`
(`src/src/signals/reactive-root.ts`,
`src/src/signals/schedulers/test-scheduler.ts`,
`src/src/signals/schedulers/stability-tracker.ts`) are imported by the
repository's tests but their sources are not under `src/`; they are
modelled from the specification below, pinned by the observable
behaviour the repository's own tests in `src/unnamed/part_000` demand.
Effect callbacks are identified by natural-number tags; "the callback
ran" is recorded by appending its tag to `ran`. -/

/-- Modelled from the spec: the combined state of a reactive root, the
schedulers available to it, and the stability tracker instrumenting
those schedulers.  `schedulers` holds one pending-action queue per
scheduler (in enqueue order); `counter` is the stability tracker's count
of outstanding scheduled actions; `connected` is the host's
connect/disconnect state; `deferred` holds effects registered while the
host was disconnected (their first run is deferred until connection);
`ran` logs executed effect callbacks in execution order. -/
structure RootWorld where
  schedulers : List (List Nat)
  counter : Int
  connected : Bool
  deferred : List (Nat × Nat)
  ran : List Nat
deriving Repr, DecidableEq

/-- Modelled from the spec: `StabilityTracker.isStable()` is true iff
the net counter of outstanding scheduled actions is zero. -/
def StabilityTracker.isStable (w : RootWorld) : Bool :=
  w.counter = 0

/-- Modelled from the spec: an accepted `schedule` call on scheduler
`sid` appends the action to that scheduler's queue, and the stability
tracker increments on every accepted schedule call it observes. -/
def scheduleAction (w : RootWorld) (sid eid : Nat) : RootWorld :=
  { w with
      schedulers := w.schedulers.set sid (w.schedulers.getD sid [] ++ [eid]),
      counter := w.counter + 1 }

/-- Modelled from the spec: cancelling a still-pending action removes it
from its scheduler's queue and decrements the tracker; cancelling an
action that is no longer pending is a no-op (idempotent cancellation). -/
def cancelAction (w : RootWorld) (sid eid : Nat) : RootWorld :=
  if eid ∈ w.schedulers.getD sid [] then
    { w with
        schedulers :=
          w.schedulers.set sid ((w.schedulers.getD sid []).erase eid),
        counter := w.counter - 1 }
  else w

/-- Executes a batch of dequeued actions in order: each execution
invokes the effect callback (logged in `ran`) and decrements the
stability tracker (one executed action each). -/
def execActions : List Nat → RootWorld → RootWorld
  | [], w => w
  | eid :: rest, w =>
      execActions rest { w with ran := w.ran ++ [eid], counter := w.counter - 1 }

/-- Modelled from the spec: `TestScheduler.flush()` executes all
currently queued actions in enqueue order.  The drain is a single pass
over the queue captured at flush start (the simpler documented choice;
the repository's tests only exercise this). -/
def TestScheduler.flush (w : RootWorld) (sid : Nat) : RootWorld :=
  execActions (w.schedulers.getD sid [])
    { w with schedulers := w.schedulers.set sid [] }

/-- Modelled from the spec: `ReactiveRootImpl.effect(callback,
scheduler)` registers the effect with the root's host
connect/disconnect capability.  If the host is already connected, the
effect's first run is scheduled on the bound scheduler; the repository's
own test (part_000, "schedules an effect on the provided ReactiveRoot")
pins that the callback does not run synchronously during registration —
after `root.effect` the spy has not been called and the tracker is
unstable, and only the scheduler's flush runs it.  If the host is not
yet connected, registration is deferred until connection. -/
def ReactiveRootImpl.effect (w : RootWorld) (sid eid : Nat) : RootWorld :=
  if w.connected then scheduleAction w sid eid
  else { w with deferred := w.deferred ++ [(sid, eid)] }

/-- Modelled from the spec: on host connection the root becomes
connected and every deferred effect registration is scheduled for its
first run on its bound scheduler. -/
def hostConnect (w : RootWorld) : RootWorld :=
  w.deferred.foldl (fun acc p => scheduleAction acc p.1 p.2)
    { w with connected := true, deferred := [] }

/-! ### Signal cells and cached (computed) signals

`signal` and `cached` are part of the reactive core whose source files
are not under `src/`; they are modelled from the specification
(sections 4.1–4.3).  Derivation functions are deep-embedded as
arithmetic expressions over signal and cached reads (with a conditional,
so dependency sets can differ across runs); evaluation threads the
dependency graph state explicitly and uses fuel for the recursion
through cached reads.  Errors thrown during evaluation propagate while
keeping all state mutations already performed (as JavaScript exceptions
do), and the active-consumer stack is restored on both success and
failure. -/

/-- Modelled from the spec: a derivation-function body — integer
arithmetic over signal reads and cached reads, with a branch on a
subexpression being nonzero (dynamic dependency sets). -/
inductive Expr where
  | lit (n : Int)
  | readSig (sid : Nat)
  | readCached (cid : Nat)
  | add (a b : Expr)
  | mul (a b : Expr)
  | ifnz (c t e : Expr)
deriving Repr, DecidableEq

/-- Modelled from the spec: a signal cell — current value plus the set
of dependent consumers registered since the last notification. -/
structure SigCell where
  value : Int
  dependents : List Nat
deriving Repr, DecidableEq

/-- Modelled from the spec: a cached (computed) signal — derivation
function, cached value, dirty flag (starts dirty), its own dependent
set, and an instrumentation counter of derivation-function calls. -/
structure CachedCell where
  expr : Expr
  value : Int
  dirty : Bool
  dependents : List Nat
  calls : Nat
deriving Repr, DecidableEq

/-- Modelled from the spec: the dependency graph — signal cells, cached
cells, and the stack-scoped active-consumer stack (head = current
consumer, a cached id). -/
structure Graph where
  sigs : List SigCell
  cacheds : List CachedCell
  stack : List Nat
deriving Repr, DecidableEq

/-- Errors raised during evaluation: a dependency-cycle error on
reentrant evaluation of a cached signal, a missing signal/cached id, or
fuel exhaustion (never reached at adequate fuel). -/
inductive RErr where
  | cycle (cid : Nat)
  | missing
  | fuel
deriving Repr, DecidableEq

/-- Adds a consumer to a dependent set, at most once. -/
def addDependent (l : List Nat) (c : Nat) : List Nat :=
  if c ∈ l then l else l ++ [c]

/-- Registers a dependency edge from signal `sid` to the current
consumer (no-op for an untracked read outside any active evaluation). -/
def registerSigDep (g : Graph) (sid : Nat) : Graph :=
  match g.stack with
  | [] => g
  | c :: _ =>
      match g.sigs.get? sid with
      | none => g
      | some cell =>
          { g with sigs :=
              g.sigs.set sid { cell with dependents := addDependent cell.dependents c } }

/-- Registers a dependency edge from cached signal `cid` to the current
consumer (no-op for an untracked read). -/
def registerCachedDep (g : Graph) (cid : Nat) : Graph :=
  match g.stack with
  | [] => g
  | c :: _ =>
      match g.cacheds.get? cid with
      | none => g
      | some cell =>
          { g with cacheds :=
              g.cacheds.set cid { cell with dependents := addDependent cell.dependents c } }

/-- Clears every dependency registration previously made by consumer
`cid` (the "clear previous registrations, re-register from scratch"
rule for dynamic dependency sets). -/
def clearDepsOf (g : Graph) (cid : Nat) : Graph :=
  { g with
      sigs := g.sigs.map (fun s => { s with dependents := s.dependents.erase cid }),
      cacheds := g.cacheds.map (fun c => { c with dependents := c.dependents.erase cid }) }

/-- Marks each listed cached signal dirty (the notification a dependent
receives when one of its dependencies changed). -/
def markDirtyAll (g : Graph) : List Nat → Graph
  | [] => g
  | cid :: rest =>
      let g' :=
        match g.cacheds.get? cid with
        | none => g
        | some cell => { g with cacheds := g.cacheds.set cid { cell with dirty := true } }
      markDirtyAll g' rest

mutual

/-- Modelled from the spec: evaluation of a derivation body.  Reads
register dependency edges to the current consumer; errors propagate
while preserving state mutations already made. -/
def evalExpr : Nat → Graph → Expr → (Except RErr Int) × Graph
  | 0, g, _ => (.error .fuel, g)
  | _ + 1, g, .lit n => (.ok n, g)
  | _ + 1, g, .readSig sid =>
      match g.sigs.get? sid with
      | none => (.error .missing, g)
      | some cell => (.ok cell.value, registerSigDep g sid)
  | fuel + 1, g, .readCached cid => evalCached fuel g cid
  | fuel + 1, g, .add a b =>
      match evalExpr fuel g a with
      | (.ok va, g') =>
          match evalExpr fuel g' b with
          | (.ok vb, g'') => (.ok (va + vb), g'')
          | (.error e, g'') => (.error e, g'')
      | (.error e, g') => (.error e, g')
  | fuel + 1, g, .mul a b =>
      match evalExpr fuel g a with
      | (.ok va, g') =>
          match evalExpr fuel g' b with
          | (.ok vb, g'') => (.ok (va * vb), g'')
          | (.error e, g'') => (.error e, g'')
      | (.error e, g') => (.error e, g')
  | fuel + 1, g, .ifnz c t e =>
      match evalExpr fuel g c with
      | (.ok vc, g') =>
          if vc ≠ 0 then evalExpr fuel g' t else evalExpr fuel g' e
      | (.error err, g') => (.error err, g')

/-- Modelled from the spec: evaluating a cached signal.  Reentrant
evaluation of a cached signal already on the active-consumer stack
fails with a cycle error, leaving its dirty flag untouched.  When not
dirty, the cached value is returned with no recomputation and no
re-registration of its own dependencies.  When dirty: previous
dependency registrations are cleared, the cached signal is pushed as
the active consumer, the derivation runs (counted), the stack is
restored on success and failure alike, and on success the result is
stored, the dirty flag cleared, and its own dependents are notified
only if the result differs from the previous cached value. -/
def evalCached : Nat → Graph → Nat → (Except RErr Int) × Graph
  | 0, g, _ => (.error .fuel, g)
  | fuel + 1, g, cid =>
      match g.cacheds.get? cid with
      | none => (.error .missing, g)
      | some cell =>
          if cid ∈ g.stack then
            (.error (.cycle cid), g)
          else if cell.dirty = false then
            (.ok cell.value, registerCachedDep g cid)
          else
            let g1 := clearDepsOf g cid
            let g2 :=
              match g1.cacheds.get? cid with
              | none => { g1 with stack := cid :: g1.stack }
              | some c1 =>
                  { g1 with
                      stack := cid :: g1.stack,
                      cacheds := g1.cacheds.set cid { c1 with calls := c1.calls + 1 } }
            let (res, g3) := evalExpr fuel g2 cell.expr
            let g4 := { g3 with stack := g3.stack.tail }
            match res with
            | .error err => (.error err, g4)
            | .ok v =>
                match g4.cacheds.get? cid with
                | none => (.error .missing, g4)
                | some c4 =>
                    let g5 :=
                      { g4 with cacheds :=
                          g4.cacheds.set cid { c4 with value := v, dirty := false } }
                    let g6 :=
                      if v ≠ cell.value then
                        let g' := markDirtyAll g5 c4.dependents
                        match g'.cacheds.get? cid with
                        | none => g'
                        | some c6 =>
                            { g' with cacheds :=
                                g'.cacheds.set cid { c6 with dependents := [] } }
                      else g5
                    (.ok v, registerCachedDep g6 cid)

end

/-- Modelled from the spec: `signal.get()` — returns the current value
and registers a dependency edge when read during an active evaluation. -/
def signalGet (g : Graph) (sid : Nat) : (Except RErr Int) × Graph :=
  match g.sigs.get? sid with
  | none => (.error .missing, g)
  | some cell => (.ok cell.value, registerSigDep g sid)

/-- Modelled from the spec: `signal.set(value)` — compares with the
current value by equality; a write of an equal value is a no-op (no
dependents notified); otherwise stores the value, notifies every
currently-registered dependent exactly once (marking dependent cached
signals dirty), then clears the per-write notification set. -/
def signalSet (g : Graph) (sid : Nat) (v : Int) : Graph :=
  match g.sigs.get? sid with
  | none => g
  | some cell =>
      if v = cell.value then g
      else
        let g1 := { g with sigs := g.sigs.set sid { cell with value := v } }
        let g2 := markDirtyAll g1 cell.dependents
        match g2.sigs.get? sid with
        | none => g2
        | some cell2 =>
            { g2 with sigs := g2.sigs.set sid { cell2 with dependents := [] } }

/-! ### Shared helper definitions for the theorems -/

/-- Derivation-function call count of cached signal `cid` in graph `g`
(instrumentation read-out; `0` for a missing id). -/
def derivationCalls (g : Graph) (cid : Nat) : Nat :=
  ((g.cacheds.get? cid).map CachedCell.calls).getD 0

/-- The concrete scenario graph: `const c = signal(5); const doubled =
cached(() => c.get() * 2)` — one signal holding `5`, one cached signal
with derivation `c.get() * 2`, initially dirty with zero derivation
calls. -/
def doubledGraph0 : Graph :=
  { sigs := [⟨5, []⟩],
    cacheds := [⟨.mul (.readSig 0) (.lit 2), 0, true, [], 0⟩],
    stack := [] }

/-- First `doubled()` read. -/
def doubledRead1 : (Except RErr Int) × Graph := evalCached 10 doubledGraph0 0

/-- Second `doubled()` read. -/
def doubledRead2 : (Except RErr Int) × Graph := evalCached 10 doubledRead1.2 0

/-- `c.set(5)` — a write of an equal value. -/
def doubledAfterSetSame : Graph := signalSet doubledRead2.2 0 5

/-- `doubled()` read after the equal-value write. -/
def doubledRead3 : (Except RErr Int) × Graph := evalCached 10 doubledAfterSetSame 0

/-- `c.set(6)` — a changing write. -/
def doubledAfterSet6 : Graph := signalSet doubledRead3.2 0 6

/-- `doubled()` read after the changing write. -/
def doubledRead4 : (Except RErr Int) × Graph := evalCached 10 doubledAfterSet6 0

/-- The concrete cyclic scenario graph: one flag signal holding `1` and
one cached signal whose derivation reads the flag and, when it is
nonzero, reads the cached signal itself (a reentrant, cyclic read),
otherwise yields `7`. -/
def cyclicGraph0 : Graph :=
  { sigs := [⟨1, []⟩],
    cacheds := [⟨.ifnz (.readSig 0) (.readCached 0) (.lit 7), 0, true, [], 0⟩],
    stack := [] }

/-- Evaluation of the cyclic cached signal while the flag is set. -/
def cyclicRead1 : (Except RErr Int) × Graph := evalCached 10 cyclicGraph0 0

/-- Clearing the flag after the failed cyclic evaluation. -/
def cyclicAfterClearFlag : Graph := signalSet cyclicRead1.2 0 0

/-- Non-cyclic re-evaluation of the same cached signal. -/
def cyclicRead2 : (Except RErr Int) × Graph := evalCached 10 cyclicAfterClearFlag 0

/-! ### Theorems for the claims -/

/-- **C4.** For `const c = signal(5); const doubled = cached(() =>
c.get() * 2)`: both of two consecutive `doubled()` reads return `10`
with the derivation called exactly once across both; after `c.set(5)`
(an equal value, a no-op write) the next read still returns `10` with
no further derivation call; after `c.set(6)` the next read returns `12`
with the derivation call count incremented by exactly one. -/
theorem cached_memoization_scenario :
    doubledRead1.1 = .ok 10
    ∧ derivationCalls doubledRead1.2 0 = 1
    ∧ doubledRead2.1 = .ok 10
    ∧ derivationCalls doubledRead2.2 0 = 1
    ∧ doubledAfterSetSame = doubledRead2.2
    ∧ doubledRead3.1 = .ok 10
    ∧ derivationCalls doubledRead3.2 0 = 1
    ∧ doubledRead4.1 = .ok 12
    ∧ derivationCalls doubledRead4.2 0 = 2 :=
  ⟨rfl, rfl, rfl, rfl, rfl, rfl, rfl, rfl, rfl⟩

/-- **C7.** A reentrant, cyclic read of a cached signal already on the
active-consumer stack fails synchronously with a cycle error (not fuel
exhaustion, i.e. not an unbounded loop), the active-consumer stack is
restored, and the cached signal remains dirty, so a later non-cyclic
read of the same cached signal succeeds and produces a value. -/
theorem cached_cycle_error_scenario :
    cyclicRead1.1 = .error (.cycle 0)
    ∧ cyclicRead1.2.stack = []
    ∧ ((cyclicRead1.2.cacheds.get? 0).map CachedCell.dirty).getD false = true
    ∧ cyclicRead2.1 = .ok 7 :=
  ⟨rfl, rfl, rfl, rfl⟩

/-- Once the module-level singleton is populated, every `from()` call
returns the stored instance and leaves the module state unchanged. -/
theorem fromCallIter_stable (n : Nat) (m : MacrotaskModule) (s : Nat)
    (h : m.singletonScheduler = some s) : fromCallIter n m = (s, m) := by
  induction n generalizing m with
  | zero => simp [fromCallIter, MacrotaskScheduler.fromCall, h]
  | succ k ih =>
      have hcall : MacrotaskScheduler.fromCall m = (s, m) := by
        simp [MacrotaskScheduler.fromCall, h]
      simp [fromCallIter, hcall, ih m h]

/-- **C8.** `MacrotaskScheduler.from()` is a process-wide singleton
accessor: starting from the initial module state, the `n`-th call (for
every `n`) returns the instance constructed by the first call, with the
module state holding exactly that stored instance. -/
theorem macrotask_from_singleton (n : Nat) :
    fromCallIter n MacrotaskModule.init
      = (0, { singletonScheduler := some 0, nextInstance := 1 }) := by
  cases n with
  | zero => rfl
  | succ k =>
      show fromCallIter k (MacrotaskScheduler.fromCall MacrotaskModule.init).2 = _
      exact fromCallIter_stable k _ 0 rfl

/-- **C8 witness.** The fourth `from()` call returns the instance
constructed by the first call. -/
theorem macrotask_from_singleton_witness :
    fromCallIter 3 MacrotaskModule.init
      = (0, { singletonScheduler := some 0, nextInstance := 1 }) :=
  macrotask_from_singleton 3

/-- **C9.** `ElementRef.from(native)` throws iff the node's `nodeType`
is not `ELEMENT_NODE`; for an element node it returns an `ElementRef`
whose `native` property is exactly the input. -/
theorem elementRef_from_spec (n : DomNode) :
    ((∃ msg, ElementRef.fromNode n = .error msg) ↔ n.nodeType ≠ ELEMENT_NODE)
    ∧ (n.nodeType = ELEMENT_NODE → ElementRef.fromNode n = .ok ⟨n⟩) := by
  unfold ElementRef.fromNode
  by_cases h : n.nodeType = ELEMENT_NODE <;> simp [h]

/-- **C9 witness.** A concrete element node (`nodeType = 1`) is wrapped
as-is, and a concrete text node (`nodeType = 3`) produces an error. -/
theorem elementRef_from_spec_witness :
    ElementRef.fromNode ⟨1, []⟩ = .ok ⟨⟨1, []⟩⟩
    ∧ (∃ msg, ElementRef.fromNode ⟨3, []⟩ = .error msg) :=
  ⟨(elementRef_from_spec ⟨1, []⟩).2 rfl,
   (elementRef_from_spec ⟨3, []⟩).1.mpr (by decide)⟩

/-- **C10.** `ElementRef.attr(name, token, options)`: when the
attribute is absent, returns `undefined` if `optional` is true and
throws if `optional` is false (the value an omitted flag defaults to);
when the attribute is present, returns the attribute string
deserialized by the serializer resolved from the token and never throws
regardless of the `optional` flag. -/
theorem elementRef_attr_spec {V : Type} (ref : ElementRef) (name : String)
    (token : SerializerToken V) :
    (ref.native.getAttribute name = none →
        ElementRef.attr ref name token true = .ok none
        ∧ ElementRef.attr ref name token false = .error attrMissingMsg)
    ∧ (∀ s opt, ref.native.getAttribute name = some s →
        ElementRef.attr ref name token opt
          = .ok (some ((resolveSerializer token).deserialize s))) := by
  constructor
  · intro h
    constructor <;> simp [ElementRef.attr, h]
  · intro s opt h
    simp [ElementRef.attr, h]

/-- **C10 witness.** On a concrete element carrying `foo="bar"` and the
identity string serializer token: a present attribute deserializes
(with either `optional` value), and a missing attribute yields
`undefined` when optional and an error when not. -/
theorem elementRef_attr_spec_witness :
    ElementRef.attr ⟨⟨1, [("foo", "bar")]⟩⟩ "foo"
        (.serializer ⟨fun s => s⟩) true = .ok (some "bar")
    ∧ ElementRef.attr ⟨⟨1, [("foo", "bar")]⟩⟩ "foo"
        (.serializer ⟨fun s => s⟩) false = .ok (some "bar")
    ∧ ElementRef.attr ⟨⟨1, [("foo", "bar")]⟩⟩ "baz"
        (.serializer ⟨fun s => s⟩) true = .ok none
    ∧ ElementRef.attr ⟨⟨1, [("foo", "bar")]⟩⟩ "baz"
        (.serializer ⟨fun s => s⟩) false = .error attrMissingMsg :=
  ⟨(elementRef_attr_spec ⟨⟨1, [("foo", "bar")]⟩⟩ "foo" _).2 "bar" true rfl,
   (elementRef_attr_spec ⟨⟨1, [("foo", "bar")]⟩⟩ "foo" _).2 "bar" false rfl,
   ((elementRef_attr_spec ⟨⟨1, [("foo", "bar")]⟩⟩ "baz" _).1 rfl).1,
   ((elementRef_attr_spec ⟨⟨1, [("foo", "bar")]⟩⟩ "baz" _).1 rfl).2⟩

/-- The host state right after `MacrotaskScheduler.schedule` queued
action `0` on the empty host. -/
def macrotaskAfterSchedule : TimerHost :=
  (MacrotaskScheduler.schedule TimerHost.empty 0).2

/-- The cancellation handle returned by that `schedule` call. -/
def macrotaskHandle : Nat :=
  (MacrotaskScheduler.schedule TimerHost.empty 0).1

/-- The host state after the event loop dequeued the timer (the timer
has left the queue; its action has not yet run). -/
def macrotaskAfterDequeue : TimerHost := ⟨[], 1, []⟩

/-- **C2 counterexample.** `MacrotaskScheduler.schedule`'s cancellation
handle is `() => clearInterval(handle)`: it relies on removing the
timer from the host's queue and owns no cancelled flag, so invoking it
after the action was dequeued for execution but before it ran does
*not* prevent the action from executing — on the concrete trace
(schedule action `0`; dequeue; cancel; run), the cancel is a no-op and
the action still runs. -/
theorem macrotask_cancel_after_dequeue_counterexample :
    dequeueTimer macrotaskAfterSchedule = some (0, macrotaskAfterDequeue)
    ∧ clearInterval macrotaskAfterDequeue macrotaskHandle = macrotaskAfterDequeue
    ∧ (runDequeued (clearInterval macrotaskAfterDequeue macrotaskHandle) 0).ran = [0]
    ∧ (runDequeued (clearInterval macrotaskAfterDequeue macrotaskHandle) 0).ran ≠ [] := by
  refine ⟨rfl, rfl, rfl, ?_⟩
  decide

/-- **C2 (amended).** The cancellation handle returned by
`MacrotaskScheduler.schedule` is idempotent (clearing the same handle
any number of times equals clearing it once), and while the timer is
still queued it prevents the action from running by removing the timer
from the host's queue; once the handle is no longer queued (in
particular after the timer was dequeued for execution) the cancel is a
no-op and running a dequeued action always invokes the callback. -/
theorem macrotask_cancel_queue_removal (h : TimerHost) (a k : Nat)
    (hinv : ∀ t ∈ h.timers, t.1 < h.nextHandle) :
    clearInterval (clearInterval h k) k = clearInterval h k
    ∧ (clearInterval (MacrotaskScheduler.schedule h a).2
         (MacrotaskScheduler.schedule h a).1).timers = h.timers
    ∧ ((∀ t ∈ h.timers, t.1 ≠ k) → clearInterval h k = h)
    ∧ (runDequeued h a).ran = h.ran ++ [a] := by
  refine ⟨?_, ?_, ?_, rfl⟩
  · simp [clearInterval, List.filter_filter]
  · simp only [MacrotaskScheduler.schedule, setTimeout, clearInterval,
      List.filter_append]
    rw [List.filter_eq_self.mpr, List.filter_eq_nil_iff.mpr, List.append_nil]
    · intro t ht
      simp only [List.mem_singleton] at ht
      subst ht
      simp
    · intro t ht
      have := hinv t ht
      simp only [decide_eq_true_eq, ne_eq]
      omega
  · intro hall
    unfold clearInterval
    rw [List.filter_eq_self.mpr (fun t ht => by simpa using hall t ht)]

/-- **C2 witness.** The amended cancellation behaviour at the concrete
empty host: cancelling handle `0` twice equals cancelling once,
cancelling the freshly scheduled action leaves the host's queue as it
was, cancelling an unqueued handle is a no-op, and running a dequeued
action logs it. -/
theorem macrotask_cancel_queue_removal_witness :
    clearInterval (clearInterval TimerHost.empty 0) 0
        = clearInterval TimerHost.empty 0
    ∧ (clearInterval (MacrotaskScheduler.schedule TimerHost.empty 0).2
         (MacrotaskScheduler.schedule TimerHost.empty 0).1).timers
        = TimerHost.empty.timers
    ∧ ((∀ t ∈ TimerHost.empty.timers, t.1 ≠ 0) →
        clearInterval TimerHost.empty 0 = TimerHost.empty)
    ∧ (runDequeued TimerHost.empty 0).ran = TimerHost.empty.ran ++ [0] :=
  macrotask_cancel_queue_removal TimerHost.empty 0 0 (by decide)

/-- **C5.** `MacrotaskScheduler.schedule` never runs the action
synchronously inside the call (the execution log is untouched) and
never coalesces two scheduled actions: each call appends its own timer
with a fresh, distinct handle, and cancelling either handle leaves the
other action queued. -/
theorem macrotask_schedule_deferred_no_coalescing (h : TimerHost) (a b : Nat) :
    (MacrotaskScheduler.schedule h a).2.ran = h.ran
    ∧ (MacrotaskScheduler.schedule h a).1 = h.nextHandle
    ∧ (MacrotaskScheduler.schedule h a).2.timers
        = h.timers ++ [(h.nextHandle, a)]
    ∧ (MacrotaskScheduler.schedule (MacrotaskScheduler.schedule h a).2 b).1
        = h.nextHandle + 1
    ∧ (MacrotaskScheduler.schedule (MacrotaskScheduler.schedule h a).2 b).2.timers
        = h.timers ++ [(h.nextHandle, a), (h.nextHandle + 1, b)]
    ∧ (h.nextHandle + 1, b)
        ∈ (clearInterval
            (MacrotaskScheduler.schedule (MacrotaskScheduler.schedule h a).2 b).2
            h.nextHandle).timers
    ∧ (h.nextHandle, a)
        ∈ (clearInterval
            (MacrotaskScheduler.schedule (MacrotaskScheduler.schedule h a).2 b).2
            (h.nextHandle + 1)).timers := by
  refine ⟨rfl, rfl, by simp [MacrotaskScheduler.schedule, setTimeout],
    rfl, by simp [MacrotaskScheduler.schedule, setTimeout], ?_, ?_⟩
  · simp [MacrotaskScheduler.schedule, setTimeout, clearInterval,
      List.mem_filter]
  · simp [MacrotaskScheduler.schedule, setTimeout, clearInterval,
      List.mem_filter]

/-- Executing a batch appends exactly the batch to the execution log. -/
theorem execActions_ran (q : List Nat) (w : RootWorld) :
    (execActions q w).ran = w.ran ++ q := by
  induction q generalizing w with
  | nil => simp [execActions]
  | cons e rest ih => simp [execActions, ih]

/-- Executing a batch decrements the tracker once per executed action. -/
theorem execActions_counter (q : List Nat) (w : RootWorld) :
    (execActions q w).counter = w.counter - q.length := by
  induction q generalizing w with
  | nil => simp [execActions]
  | cons e rest ih =>
      simp only [execActions, ih, List.length_cons]
      push_cast
      ring

/-- Executing a batch leaves the scheduler queues untouched. -/
theorem execActions_schedulers (q : List Nat) (w : RootWorld) :
    (execActions q w).schedulers = w.schedulers := by
  induction q generalizing w with
  | nil => simp [execActions]
  | cons e rest ih => simp [execActions, ih]

/-- `getD` after `set` at the same in-range index yields the new value. -/
theorem getD_set_self (l : List (List Nat)) (i : Nat) (x : List Nat)
    (h : i < l.length) : (l.set i x).getD i [] = x := by
  simp [List.getD, List.getElem?_set_eq_of_lt, h]

/-- `getD` after `set` at a different index is unchanged. -/
theorem getD_set_ne (l : List (List Nat)) (i j : Nat) (x : List Nat)
    (h : i ≠ j) : (l.set i x).getD j [] = l.getD j [] := by
  simp [List.getD, List.getElem?_set_ne h]

/-- A flush appends the flushed queue to the execution log. -/
theorem flush_ran (w : RootWorld) (sid : Nat) :
    (TestScheduler.flush w sid).ran = w.ran ++ w.schedulers.getD sid [] := by
  unfold TestScheduler.flush
  rw [execActions_ran]

/-- A flush empties the flushed scheduler's queue and touches no other
queue. -/
theorem flush_schedulers (w : RootWorld) (sid : Nat) :
    (TestScheduler.flush w sid).schedulers = w.schedulers.set sid [] := by
  unfold TestScheduler.flush
  rw [execActions_schedulers]

/-- A concrete reactive-root world mirroring the repository's test
setup: two (test) schedulers with empty queues, a stable tracker, and a
connected host. -/
def rootWorld0 : RootWorld := ⟨[[], []], 0, true, [], []⟩

/-- **C1 counterexample.** On a connected host, `root.effect(callback)`
does *not* run the callback synchronously during the registration call:
on the concrete connected world, registering effect `7` leaves the
execution log empty (the repository's own test pins this behaviour —
after `root.effect` the spy has not been called). -/
theorem effect_not_synchronous_counterexample :
    rootWorld0.connected = true
    ∧ (ReactiveRootImpl.effect rootWorld0 0 7).ran ≠ rootWorld0.ran ++ [7]
    ∧ (ReactiveRootImpl.effect rootWorld0 0 7).ran = [] := by decide

/-- **C1 (amended).** For every effect registered through a root whose
host is already connected, `root.effect(callback)` does not invoke the
callback during the registration call; instead it schedules the
effect's first run on the bound scheduler (appending it to the queue
and making the tracker count one more outstanding action), and that
first run executes when the scheduler flushes. -/
theorem effect_schedules_first_run (w : RootWorld) (sid eid : Nat)
    (hc : w.connected = true) (hs : sid < w.schedulers.length) :
    (ReactiveRootImpl.effect w sid eid).ran = w.ran
    ∧ (ReactiveRootImpl.effect w sid eid).schedulers.getD sid []
        = w.schedulers.getD sid [] ++ [eid]
    ∧ (ReactiveRootImpl.effect w sid eid).counter = w.counter + 1
    ∧ (TestScheduler.flush (ReactiveRootImpl.effect w sid eid) sid).ran
        = w.ran ++ (w.schedulers.getD sid [] ++ [eid]) := by
  have hw : ReactiveRootImpl.effect w sid eid = scheduleAction w sid eid := by
    simp [ReactiveRootImpl.effect, hc]
  refine ⟨by simp [hw, scheduleAction], ?_, by simp [hw, scheduleAction], ?_⟩
  · rw [hw]
    exact getD_set_self _ _ _ hs
  · rw [hw]
    unfold TestScheduler.flush
    rw [execActions_ran]
    show (scheduleAction w sid eid).ran
        ++ (scheduleAction w sid eid).schedulers.getD sid [] = _
    rw [show (scheduleAction w sid eid).ran = w.ran from rfl]
    rw [show (scheduleAction w sid eid).schedulers
        = w.schedulers.set sid (w.schedulers.getD sid [] ++ [eid]) from rfl]
    rw [getD_set_self _ _ _ hs]

/-- **C1 witness.** The amended behaviour at the concrete connected
world: registering effect `7` leaves the log empty, queues the run,
bumps the tracker, and the flush runs the effect. -/
theorem effect_schedules_first_run_witness :
    (ReactiveRootImpl.effect rootWorld0 0 7).ran = rootWorld0.ran
    ∧ (ReactiveRootImpl.effect rootWorld0 0 7).schedulers.getD 0 []
        = rootWorld0.schedulers.getD 0 [] ++ [7]
    ∧ (ReactiveRootImpl.effect rootWorld0 0 7).counter = rootWorld0.counter + 1
    ∧ (TestScheduler.flush (ReactiveRootImpl.effect rootWorld0 0 7) 0).ran
        = rootWorld0.ran ++ (rootWorld0.schedulers.getD 0 [] ++ [7]) :=
  effect_schedules_first_run rootWorld0 0 7 rfl (by decide)

/-- **C3.** The stability tracker's counter increases by one on every
accepted schedule call, decreases by one on every executed action (a
flush of a queue of length `n` decreases it by `n`) and on every
cancelled pending action (cancelling a non-pending action is a no-op),
and `isStable()` is true iff the counter is zero; concretely, right
after registration enqueues a pending effect run `isStable()` is false,
and after the manual scheduler's flush executes it `isStable()` is
true. -/
theorem stability_tracker_counter_spec :
    (∀ w sid eid, (scheduleAction w sid eid).counter = w.counter + 1)
    ∧ (∀ w sid eid, eid ∈ w.schedulers.getD sid [] →
        (cancelAction w sid eid).counter = w.counter - 1)
    ∧ (∀ w sid eid, eid ∉ w.schedulers.getD sid [] → cancelAction w sid eid = w)
    ∧ (∀ w sid, (TestScheduler.flush w sid).counter
        = w.counter - (w.schedulers.getD sid []).length)
    ∧ (∀ w, StabilityTracker.isStable w = true ↔ w.counter = 0)
    ∧ StabilityTracker.isStable (ReactiveRootImpl.effect rootWorld0 0 7) = false
    ∧ StabilityTracker.isStable
        (TestScheduler.flush (ReactiveRootImpl.effect rootWorld0 0 7) 0) = true := by
  refine ⟨fun w sid eid => rfl, ?_, ?_, ?_, ?_, by decide, by decide⟩
  · intro w sid eid h
    unfold cancelAction
    rw [if_pos h]
  · intro w sid eid h
    unfold cancelAction
    rw [if_neg h]
  · intro w sid
    unfold TestScheduler.flush
    rw [execActions_counter]
  · intro w
    simp [StabilityTracker.isStable]

/-- **C3 witness.** At the concrete world: a schedule call bumps the
counter, cancelling the now-pending action decrements it, and
`isStable` agrees with the counter being zero. -/
theorem stability_tracker_counter_spec_witness :
    (scheduleAction rootWorld0 0 7).counter = rootWorld0.counter + 1
    ∧ (cancelAction (scheduleAction rootWorld0 0 7) 0 7).counter
        = (scheduleAction rootWorld0 0 7).counter - 1
    ∧ (StabilityTracker.isStable rootWorld0 = true ↔ rootWorld0.counter = 0) :=
  ⟨stability_tracker_counter_spec.1 rootWorld0 0 7,
   stability_tracker_counter_spec.2.1 (scheduleAction rootWorld0 0 7) 0 7 (by decide),
   stability_tracker_counter_spec.2.2.2.2.1 rootWorld0⟩

/-- **C6.** An effect registered with an explicit scheduler is bound to
that scheduler and not to the root's default scheduler: flushing the
default scheduler does not run the effect, while flushing the provided
scheduler does. -/
theorem effect_custom_scheduler_binding (w : RootWorld) (sid dsid eid : Nat)
    (hc : w.connected = true) (hs : sid < w.schedulers.length)
    (hne : sid ≠ dsid)
    (hq : eid ∉ w.schedulers.getD dsid [])
    (hr : eid ∉ w.ran) :
    eid ∉ (TestScheduler.flush (ReactiveRootImpl.effect w sid eid) dsid).ran
    ∧ eid ∈ (TestScheduler.flush
        (TestScheduler.flush (ReactiveRootImpl.effect w sid eid) dsid) sid).ran := by
  have hw : ReactiveRootImpl.effect w sid eid = scheduleAction w sid eid := by
    simp [ReactiveRootImpl.effect, hc]
  rw [hw]
  have hself : (scheduleAction w sid eid).schedulers.getD sid []
      = w.schedulers.getD sid [] ++ [eid] := getD_set_self _ _ _ hs
  have hother : (scheduleAction w sid eid).schedulers.getD dsid []
      = w.schedulers.getD dsid [] := getD_set_ne _ _ _ _ hne
  have hran1 : (TestScheduler.flush (scheduleAction w sid eid) dsid).ran
      = w.ran ++ w.schedulers.getD dsid [] := by
    rw [flush_ran, hother]
    rfl
  constructor
  · rw [hran1]
    intro hmem
    rcases List.mem_append.mp hmem with h | h
    · exact hr h
    · exact hq h
  · rw [flush_ran, flush_schedulers, getD_set_ne _ _ _ _ (Ne.symm hne), hself]
    refine List.mem_append.mpr (Or.inr ?_)
    exact List.mem_append.mpr (Or.inr (List.mem_singleton.mpr rfl))

/-- **C6 witness.** On the concrete two-scheduler world: registering
effect `7` on scheduler `1`, flushing scheduler `0` (the default) does
not run it, flushing scheduler `1` does. -/
theorem effect_custom_scheduler_binding_witness :
    7 ∉ (TestScheduler.flush (ReactiveRootImpl.effect rootWorld0 1 7) 0).ran
    ∧ 7 ∈ (TestScheduler.flush
        (TestScheduler.flush (ReactiveRootImpl.effect rootWorld0 1 7) 0) 1).ran :=
  effect_custom_scheduler_binding rootWorld0 1 0 7 rfl (by decide) (by decide)
    (by decide) (by decide)

end Hydrator
